import Mathlib

/-!
Verification development for the KiloMan_Giga platformer core
(src/components/GameCanvas.tsx). The per-frame simulation pieces that the
claims concern are embedded shallowly: numeric values are rationals, the
Matter.js body registry is a list of (id, label) records, the React state
pair (gameState, gameStateRef) is carried explicitly, and the engine event
order (beforeUpdate controllers, collisionStart batch, afterUpdate fall
check, deferred React commit) is one tick of a step function.
-/

set_option maxHeartbeats 1000000

namespace KiloMan

/-- GameState values of GameCanvas.tsx (the gameState useState and the
gameStateRef mirror): playing, gameOver, won. -/
inductive GameState where
  | playing
  | gameOver
  | won
deriving DecidableEq

/-- Body labels assigned at world-build time; blank stands for Matter.js
bodies created without an explicit label (the player torso and head). -/
inductive BodyLabel where
  | ground
  | boundary
  | platform
  | movingPlatform
  | spike
  | wall
  | gate
  | goal
  | monster
  | projectile
  | blank
deriving DecidableEq

/-- A physics body as the collision handler sees it: the engine-assigned
identity and the label string. -/
structure Body where
  id : Nat
  label : BodyLabel
deriving DecidableEq

/-- One contact pair of a collisionStart event. -/
structure Pair where
  bodyA : Body
  bodyB : Body
deriving DecidableEq

inductive MonsterAIKind where
  | patrol
  | flying
deriving DecidableEq

/-- MonsterAIState of GameCanvas.tsx (lines 26-37): per-NPC AI record. -/
structure MonsterAIState where
  kind : MonsterAIKind
  originX : ℚ
  originY : ℚ
  range : ℚ
  speed : ℚ
  dir : Int
  chaseRadius : Option ℚ := none
  hoverAmp : Option ℚ := none
  hoverFreq : Option ℚ := none
deriving DecidableEq

/-- The mutable registries and game-state cells touched by the collision
handler (lines 865-927), the fall check (lines 1448-1452) and the React
state effects (lines 68-85). gameState is the committed React state,
gameStateRef the ref mirror synced by the effect at lines 83-85, and
pendingGameState the batched setGameState value not yet committed. -/
structure SimState where
  worldBodies : List Body
  projectiles : List Body
  monsters : List Body
  monsterAI : List (Nat × MonsterAIState)
  monsterStyleSeed : List (Nat × Nat)
  gameState : GameState
  gameStateRef : GameState
  pendingGameState : Option GameState
deriving DecidableEq

/-- Identity-based filter used at lines 884-885:
list.filter(b => b.id !== i). -/
def removeById (l : List Body) (i : Nat) : List Body :=
  l.filter (fun b => b.id != i)

/-- Map.delete modelled on an association list keyed by body id. -/
def removeKey {α : Type} (l : List (Nat × α)) (i : Nat) : List (Nat × α) :=
  l.filter (fun kv => kv.1 != i)

/-- Map.get modelled on an association list keyed by body id. -/
def lookupKV {α : Type} : List (Nat × α) → Nat → Option α
  | [], _ => none
  | (k, v) :: t, i => if k = i then some v else lookupKV t i

/-- One iteration of the pairs.forEach body of the collisionStart handler
(lines 868-926). The projectile-monster branch removes both bodies from the
world and the tracking collections and returns early; the player branch
classifies the other body by label and performs the guarded setGameState,
the guard reading gameStateRef (not the committed state). torsoId and
headId identify the player parts, which the source compares by reference. -/
def processPair (torsoId headId : Nat) (s : SimState) (p : Pair) : SimState :=
  if (p.bodyA.label = BodyLabel.projectile ∧ p.bodyB.label = BodyLabel.monster) ∨
     (p.bodyB.label = BodyLabel.projectile ∧ p.bodyA.label = BodyLabel.monster) then
    let projectile := if p.bodyA.label = BodyLabel.projectile then p.bodyA else p.bodyB
    let monster := if p.bodyA.label = BodyLabel.projectile then p.bodyB else p.bodyA
    { s with
      worldBodies := removeById (removeById s.worldBodies projectile.id) monster.id
      projectiles := removeById s.projectiles projectile.id
      monsters := removeById s.monsters monster.id
      monsterAI := removeKey s.monsterAI monster.id
      monsterStyleSeed := removeKey s.monsterStyleSeed monster.id }
  else
    if (p.bodyA.id = torsoId ∨ p.bodyB.id = torsoId) ∨
       (p.bodyA.id = headId ∨ p.bodyB.id = headId) then
      let otherBody :=
        if p.bodyA.id = torsoId ∨ p.bodyB.id = torsoId then
          (if p.bodyA.id = torsoId then p.bodyB else p.bodyA)
        else
          (if p.bodyA.id = headId then p.bodyB else p.bodyA)
      if otherBody.label = BodyLabel.spike then
        (if s.gameStateRef = GameState.playing then
          { s with pendingGameState := some GameState.gameOver } else s)
      else if otherBody.label = BodyLabel.monster then
        (if s.gameStateRef = GameState.playing then
          { s with pendingGameState := some GameState.gameOver } else s)
      else if otherBody.label = BodyLabel.goal then
        (if s.gameStateRef = GameState.playing then
          { s with pendingGameState := some GameState.won } else s)
      else s
    else s

def WORLD_HEIGHT : ℚ := 600
def GROUND_HEIGHT : ℚ := 50
def PLAYER_WIDTH : ℚ := 40
def PLAYER_HEIGHT : ℚ := 60

/-- Fall detection of the afterUpdate handler (lines 1448-1452): force
gameOver when the torso y exceeds WORLD_HEIGHT + 260 while the
gameStateRef still reads playing. -/
def fallCheck (playerY : ℚ) (s : SimState) : SimState :=
  if playerY > WORLD_HEIGHT + 260 ∧ s.gameStateRef = GameState.playing then
    { s with pendingGameState := some GameState.gameOver }
  else s

/-- React commit between ticks: the last value passed to setGameState in
this tick becomes the committed gameState, and the effect at lines 83-85
then syncs gameStateRef to it. With no pending set, nothing re-renders. -/
def reactFlush (s : SimState) : SimState :=
  match s.pendingGameState with
  | some g =>
      { s with gameState := g, gameStateRef := g, pendingGameState := none }
  | none => s

/-- Environment data of one engine tick: the collisionStart pairs reported
by Matter.js and the torso y position read by the afterUpdate handler. -/
structure TickInput where
  pairs : List Pair
  playerY : ℚ
deriving DecidableEq

def collisionBatch (torsoId headId : Nat) (ps : List Pair) (s : SimState) : SimState :=
  ps.foldl (processPair torsoId headId) s

/-- Engine-assigned ids of the player torso and head, after the 38 bodies
created earlier at world-build time (9 ground segments, 2 boundary walls,
9 platforms, the moving platform, 7 spikes, 2 walls, 4 gate parts, the
goal sensor, 3 monsters). -/
def torsoId : Nat := 39

def headId : Nat := 40

/-- One tick: collisionStart batch during the engine update, then the
afterUpdate fall check, then the deferred React commit and ref sync,
which complete before the next animation frame. -/
def runTick (i : TickInput) (s : SimState) : SimState :=
  reactFlush (fallCheck i.playerY (collisionBatch torsoId headId i.pairs s))

def runTicks : List TickInput → SimState → SimState
  | [], s => s
  | i :: rest, s => runTicks rest (runTick i s)

/-- Style seed registered for each monster (lines 517, 539, 559):
(id * 9301 + 49297) % 233280. -/
def styleSeed (id : Nat) : Nat := (id * 9301 + 49297) % 233280

/-- AI record of monster 1 (lines 518-525), ground patroller. -/
def monster1AI : MonsterAIState :=
  { kind := MonsterAIKind.patrol, originX := 1200, originY := 520,
    range := 240, speed := 2.2, dir := 1 }

/-- AI record of monster 2 (lines 540-547), platform patroller. -/
def monster2AI : MonsterAIState :=
  { kind := MonsterAIKind.patrol, originX := 3350, originY := 310,
    range := 180, speed := 1.9, dir := -1 }

/-- AI record of monster 3 (lines 560-570), flying monster. -/
def monster3AI : MonsterAIState :=
  { kind := MonsterAIKind.flying, originX := 5600, originY := 240,
    range := 0, speed := 2.6, dir := 1, chaseRadius := some 340,
    hoverAmp := some 22, hoverFreq := some 0.0022 }

def monster1Body : Body := { id := 36, label := BodyLabel.monster }
def monster2Body : Body := { id := 37, label := BodyLabel.monster }
def monster3Body : Body := { id := 38, label := BodyLabel.monster }

/-- The initial Matter world contents in creation order: ground segments
(8000-long level tiled at width 900 gives 9 segments), boundary walls,
the 9 platforms, the moving platform, the 7 spikes, the 2 walls, the gate
pillars, top and flag, the goal sensor, the 3 monsters, and the player
torso and head. -/
def initialWorldBodies : List Body :=
  ((List.range 9).map (fun i => { id := i + 1, label := BodyLabel.ground })) ++
  [{ id := 10, label := BodyLabel.boundary }, { id := 11, label := BodyLabel.boundary }] ++
  ((List.range 9).map (fun i => { id := i + 12, label := BodyLabel.platform })) ++
  [{ id := 21, label := BodyLabel.movingPlatform }] ++
  ((List.range 7).map (fun i => { id := i + 22, label := BodyLabel.spike })) ++
  [{ id := 29, label := BodyLabel.wall }, { id := 30, label := BodyLabel.wall },
   { id := 31, label := BodyLabel.gate }, { id := 32, label := BodyLabel.gate },
   { id := 33, label := BodyLabel.gate }, { id := 34, label := BodyLabel.gate },
   { id := 35, label := BodyLabel.goal },
   monster1Body, monster2Body, monster3Body,
   { id := torsoId, label := BodyLabel.blank },
   { id := headId, label := BodyLabel.blank }]

/-- State right after world construction: the three monsters tracked with
their AI and style-seed records, empty projectile list, playing state. -/
def initSim : SimState :=
  { worldBodies := initialWorldBodies
    projectiles := []
    monsters := [monster1Body, monster2Body, monster3Body]
    monsterAI := [(36, monster1AI), (37, monster2AI), (38, monster3AI)]
    monsterStyleSeed := [(36, styleSeed 36), (37, styleSeed 37), (38, styleSeed 38)]
    gameState := GameState.playing
    gameStateRef := GameState.playing
    pendingGameState := none }

def torsoBody : Body := { id := torsoId, label := BodyLabel.blank }
def headBody : Body := { id := headId, label := BodyLabel.blank }
def spikeBody : Body := { id := 22, label := BodyLabel.spike }
def goalBody : Body := { id := 35, label := BodyLabel.goal }

/-- Contact of the torso with a spike body. -/
def spikeTorsoPair : Pair := { bodyA := torsoBody, bodyB := spikeBody }

/-- Contact of the torso with the goal sensor. -/
def goalTorsoPair : Pair := { bodyA := torsoBody, bodyB := goalBody }

/-- Contact of the head with monster 1, reported monster-first. -/
def monsterHeadPairRev : Pair := { bodyA := monster1Body, bodyB := headBody }

/-- Contact of the head with the goal sensor, reported goal-first. -/
def goalHeadPairRev : Pair := { bodyA := goalBody, bodyB := headBody }

/-- The label classification of the player branch (lines 907-921): Spike
and Monster contacts transition to gameOver, Goal to won, anything else
is ignored. -/
def TerminalLabel (lb : BodyLabel) (g : GameState) : Prop :=
  (lb = BodyLabel.spike ∧ g = GameState.gameOver) ∨
  (lb = BodyLabel.monster ∧ g = GameState.gameOver) ∨
  (lb = BodyLabel.goal ∧ g = GameState.won)

/-- A player-terminal contact pair with outcome g, in either body order:
one body is the (unlabeled) torso or head, the other carries a terminal
label and is not itself a player part. -/
def PlayerTerminalPair (pr : Pair) (g : GameState) : Prop :=
  (pr.bodyA.label = BodyLabel.blank ∧
    (pr.bodyA.id = torsoId ∨ pr.bodyA.id = headId) ∧
    pr.bodyB.id ≠ torsoId ∧ pr.bodyB.id ≠ headId ∧
    TerminalLabel pr.bodyB.label g) ∨
  (pr.bodyB.label = BodyLabel.blank ∧
    (pr.bodyB.id = torsoId ∨ pr.bodyB.id = headId) ∧
    pr.bodyA.id ≠ torsoId ∧ pr.bodyA.id ≠ headId ∧
    TerminalLabel pr.bodyA.label g)

/-- Registry consistency: every tracked monster has an AI record and a
style-seed record under its body id, and every AI record key belongs to a
tracked monster body. -/
def RegistryConsistent (s : SimState) : Prop :=
  (∀ m ∈ s.monsters,
      (lookupKV s.monsterAI m.id).isSome = true ∧
      (lookupKV s.monsterStyleSeed m.id).isSome = true) ∧
  (∀ kv ∈ s.monsterAI, ∃ m ∈ s.monsters, m.id = kv.1)

/-- Between ticks the ref mirrors the committed state and no setGameState
value is pending. -/
def TickInv (s : SimState) : Prop :=
  s.gameStateRef = s.gameState ∧ s.pendingGameState = none

/-! Player controller (beforeUpdate handler, lines 729-801). -/

/-- Per-tick controller inputs: left is ArrowLeft or KeyA, right is
ArrowRight or KeyD, jumpDown is ArrowUp or Space or KeyW, grounded is the
result of the short downward ray query. -/
structure CtrlIn where
  left : Bool
  right : Bool
  jumpDown : Bool
  grounded : Bool
deriving DecidableEq

/-- Controller outputs for the tick: the velocity as set on the body, the
updated facing and jump-edge memory, and the horizontal force per unit
mass accumulated for the following integration step. -/
structure CtrlOut where
  vel : ℚ × ℚ
  facing : Int
  jumpWasDown : Bool
  forcePerMassX : ℚ
deriving DecidableEq

def maxRunSpeed : ℚ := 9.5
def maxAirSpeed : ℚ := 10.5

/-- Movement axis of line 765: (right ? 1 : 0) + (left ? -1 : 0). -/
def ctrlAxis (inp : CtrlIn) : Int :=
  (if inp.right then 1 else 0) + (if inp.left then -1 else 0)

/-- Facing update of lines 768-774: last nonzero axis wins; with no input
the facing follows the velocity beyond a 0.35 threshold (the two
threshold tests are sequential and their conditions are disjoint). -/
def ctrlFacing (inp : CtrlIn) (vel : ℚ × ℚ) (facing : Int) : Int :=
  if ctrlAxis inp = 1 then 1
  else if ctrlAxis inp = -1 then -1
  else if vel.1 > 0.35 then 1
  else if vel.1 < -0.35 then -1
  else facing

/-- Force application of lines 776-785: with nonzero axis an acceleration
force per unit mass (ground 0.0032, air 0.0038); with zero axis a braking
force (-vx times 0.0046 on ground, 0.0018 in air) above the 0.02
dead band, else outright zeroing of vx while grounded. Returns the
velocity as possibly rewritten plus the accumulated force per mass. -/
def ctrlVelForce (inp : CtrlIn) (vel : ℚ × ℚ) : (ℚ × ℚ) × ℚ :=
  if ctrlAxis inp ≠ 0 then
    (vel, (ctrlAxis inp : ℚ) * (if inp.grounded then 0.0032 else 0.0038))
  else if 0.02 < |vel.1| then
    (vel, -vel.1 * (if inp.grounded then 0.0046 else 0.0018))
  else if inp.grounded then ((0, vel.2), 0)
  else (vel, 0)

/-- Hard clamp of lines 787-791 against the cap for the current grounded
state. -/
def ctrlClamp (inp : CtrlIn) (v : ℚ × ℚ) : ℚ × ℚ :=
  let maxSpeed : ℚ := if inp.grounded then maxRunSpeed else maxAirSpeed
  if v.1 > maxSpeed then (maxSpeed, v.2)
  else if v.1 < -maxSpeed then (-maxSpeed, v.2)
  else v

/-- The player movement controller of lines 756-800: facing update, force
or brake or outright zeroing, hard velocity clamp, then the edge-triggered
jump of lines 793-800 that overwrites the vertical velocity with
-jumpStrength while grounded. -/
def playerController (inp : CtrlIn) (jumpStrengthVal : ℚ) (vel : ℚ × ℚ)
    (facing : Int) (jumpWasDown : Bool) : CtrlOut :=
  let vf := ctrlVelForce inp vel
  let vel3 := ctrlClamp inp vf.1
  let jumpPressed : Bool := inp.jumpDown && !jumpWasDown
  let vel4 : ℚ × ℚ :=
    if jumpPressed && inp.grounded then (vel3.1, -jumpStrengthVal) else vel3
  { vel := vel4, facing := ctrlFacing inp vel facing,
    jumpWasDown := inp.jumpDown, forcePerMassX := vf.2 }

/-- Modelled from the spec: the Rigid-Body Physics Substrate (matter-js, an
external dependency whose code is not under src) performs the integration
step that consumes the force accumulated by applyForce. Matter.Body.update
computes velocity := velocity * (1 - frictionAir) + (force / mass) * dt^2
with the default dt of 1000/60 ms; the torso uses frictionAir 0.003. -/
def integrateVelX (frictionAir dt vx forcePerMass : ℚ) : ℚ :=
  vx * (1 - frictionAir) + forcePerMass * dt ^ 2

/-! Patrol AI (beforeUpdate handler, lines 815-820) and the moving
platform rule of lines 854-861, which is identical in shape. -/

structure PatrolState where
  x : ℚ
  dir : Int
deriving DecidableEq

/-- The direction flip rule applied every tick before the velocity is set:
dir becomes 1 when x is left of originX - range/2, and -1 when x is right
of originX + range/2 (the second test runs after the first). -/
def patrolFlip (originX range : ℚ) (dir : Int) (x : ℚ) : Int :=
  let half := range / 2
  let d1 := if x < originX - half then 1 else dir
  if x > originX + half then -1 else d1

/-- Modelled from the spec: the substrate integrates the prescribed
velocity into the position each step (the body moves at constant signed
speed along the horizontal axis), so one tick is a flip followed by a move
of speed in the flipped direction. -/
def patrolTick (originX range speed : ℚ) (s : PatrolState) : PatrolState :=
  let d := patrolFlip originX range s.dir s.x
  { x := s.x + speed * (d : ℚ), dir := d }

def patrolRun (originX range speed : ℚ) (s : PatrolState) : Nat → PatrolState
  | 0 => s
  | n + 1 => patrolTick originX range speed (patrolRun originX range speed s n)

/-! Flying AI hover mode (beforeUpdate handler, lines 823-850). -/

/-- clamp helper of line 87: Math.max(min, Math.min(v, max)). -/
def clamp (v lo hi : ℚ) : ℚ := max lo (min v hi)

/-- The chase test of line 832, dist > 1 && dist < chaseRadius with
dist = hypot dx dy, stated on squared distances (equivalent for a
nonnegative radius since hypot is nonnegative). -/
def flyingChaseCond (px py mx my chaseRadius : ℚ) : Prop :=
  1 < (px - mx) ^ 2 + (py - my) ^ 2 ∧
  (px - mx) ^ 2 + (py - my) ^ 2 < chaseRadius ^ 2

/-- Hover-mode velocity of lines 838-848. oscX and oscY are the sampled
sine values sin(t * 0.001) and sin(t * hoverFreq); the target point is
origin plus the oscillation, and each velocity component is 0.06 times the
offset toward the target, clamped per axis to [-speed, speed]. -/
def flyingHoverVel (ai : MonsterAIState) (mx my oscX oscY : ℚ) : ℚ × ℚ :=
  let hoverAmp := ai.hoverAmp.getD 18
  let targetX := ai.originX + oscX * 70
  let targetY := ai.originY + oscY * hoverAmp
  let toX := targetX - mx
  let toY := targetY - my
  (clamp (toX * 0.06) (-ai.speed) ai.speed,
   clamp (toY * 0.06) (-ai.speed) ai.speed)

/-! Keyboard handling (lines 663-690) and firing (lines 693-739). -/

inductive KeyCode where
  | arrowLeft
  | arrowRight
  | arrowUp
  | space
  | keyW
  | keyA
  | keyD
  | keyK
deriving DecidableEq

/-- The keysRef map restricted to the codes the game reads. -/
structure Keys where
  arrowLeft : Bool := false
  arrowRight : Bool := false
  arrowUp : Bool := false
  space : Bool := false
  keyW : Bool := false
  keyA : Bool := false
  keyD : Bool := false
  keyK : Bool := false
deriving DecidableEq

def setKey (ks : Keys) (c : KeyCode) (v : Bool) : Keys :=
  match c with
  | KeyCode.arrowLeft => { ks with arrowLeft := v }
  | KeyCode.arrowRight => { ks with arrowRight := v }
  | KeyCode.arrowUp => { ks with arrowUp := v }
  | KeyCode.space => { ks with space := v }
  | KeyCode.keyW => { ks with keyW := v }
  | KeyCode.keyA => { ks with keyA := v }
  | KeyCode.keyD => { ks with keyD := v }
  | KeyCode.keyK => { ks with keyK := v }

/-- A raw keyboard event delivered by the browser. While a key is held the
browser delivers further keydown events at the auto-repeat rate; the
handlers at lines 663-675 set or clear the pressed flag on every event and
never consult e.repeat. -/
inductive KeyEvent where
  | down (c : KeyCode)
  | up (c : KeyCode)
deriving DecidableEq

def applyKeyEvent (ks : Keys) (e : KeyEvent) : Keys :=
  match e with
  | KeyEvent.down c => setKey ks c true
  | KeyEvent.up c => setKey ks c false

/-- A spawned projectile as created at lines 700-721. -/
structure ProjectileBody where
  posX : ℚ
  posY : ℚ
  velX : ℚ
  velY : ℚ
deriving DecidableEq

/-- createProjectile (lines 693-726): spawned at the torso position offset
facing * PLAYER_WIDTH * 0.6 horizontally, with velocity (facing * 15, 0). -/
def createProjectile (px py : ℚ) (facing : Int) : ProjectileBody :=
  { posX := px + (facing : ℚ) * PLAYER_WIDTH * 0.6
    posY := py
    velX := (facing : ℚ) * 15
    velY := 0 }

structure FireState where
  keys : Keys
  projectiles : List ProjectileBody
  playerX : ℚ
  playerY : ℚ
  facing : Int
deriving DecidableEq

/-- The fire branch at lines 734-739: when the KeyK flag is set, spawn one
projectile and clear the flag so it cannot fire again next tick without a
new keydown event. -/
def fireCheck (s : FireState) : FireState :=
  if s.keys.keyK then
    { s with
      projectiles := createProjectile s.playerX s.playerY s.facing :: s.projectiles
      keys := setKey s.keys KeyCode.keyK false }
  else s

/-- One tick of the firing pipeline: the browser events delivered since
the previous tick update keysRef, then the beforeUpdate handler runs. -/
def fireTick (events : List KeyEvent) (s : FireState) : FireState :=
  fireCheck { s with keys := events.foldl applyKeyEvent s.keys }

def fireRun (ticks : List (List KeyEvent)) (s : FireState) : FireState :=
  ticks.foldl (fun s evs => fireTick evs s) s

/-- Initial firing state: no keys down, no projectiles, player at the
spawn position (120, 520) facing right. -/
def fireInit : FireState :=
  { keys := {}, projectiles := [], playerX := 120, playerY := 520, facing := 1 }

/-- Jump-strength resolution: the jumpStrength prop defaults to 22
(line 42), and the effect at lines 77-81 prefers the deprecated jumpHeight
prop whenever it is a number. No range validation is performed. -/
def effectiveJumpStrength (jumpStrengthProp jumpHeightProp : Option ℚ) : ℚ :=
  let jumpStrength := jumpStrengthProp.getD 22
  match jumpHeightProp with
  | some h => h
  | none => jumpStrength

/-- Firing state with the fire key flag already set by a keydown event. -/
def fireArmed : FireState := { fireInit with keys := { keyK := true } }

/-- Two concrete ticks: a spike contact, then a goal contact. -/
def c1demoInputs : List TickInput :=
  [{ pairs := [spikeTorsoPair], playerY := 300 },
   { pairs := [goalTorsoPair], playerY := 300 }]

/-- A projectile body in flight. -/
def pBody : Body := { id := 50, label := BodyLabel.projectile }

/-- A small mid-run state: one projectile in flight, monster 1 alive and
registered, game playing. -/
def c8state : SimState :=
  { worldBodies := [pBody, monster1Body, { id := 1, label := BodyLabel.ground }]
    projectiles := [pBody]
    monsters := [monster1Body]
    monsterAI := [(36, monster1AI)]
    monsterStyleSeed := [(36, styleSeed 36)]
    gameState := GameState.playing
    gameStateRef := GameState.playing
    pendingGameState := none }

/-- Controller input used by concrete evaluations: right arrow held while
standing on the ground. -/
def runRightIn : CtrlIn :=
  { left := false, right := true, jumpDown := false, grounded := true }

/-- Controller input of the jump scenario: grounded, jump key just went
down, no horizontal keys. -/
def jumpIn : CtrlIn :=
  { left := false, right := false, jumpDown := true, grounded := true }

/-! Theorems. -/

/-- C9: the deprecated jumpHeight prop wins over jumpStrength whenever both
are provided, the default with neither prop is 22, which is above the
documented [10, 18] range, and any provided value is used unvalidated. -/
theorem jump_config_precedence_default :
    (∀ a b : ℚ, effectiveJumpStrength (some a) (some b) = b) ∧
    effectiveJumpStrength none none = 22 ∧
    ¬ effectiveJumpStrength none none ≤ 18 ∧
    (∀ v : ℚ, effectiveJumpStrength none (some v) = v) ∧
    (∀ v : ℚ, effectiveJumpStrength (some v) none = v) := by
  refine ⟨fun a b => rfl, rfl, ?_, fun v => rfl, fun v => rfl⟩
  simp only [effectiveJumpStrength, Option.getD_none]
  norm_num

theorem ctrlVelForce_jumpDown_irrel (inp : CtrlIn) (b : Bool) (vel : ℚ × ℚ) :
    ctrlVelForce { inp with jumpDown := b } vel = ctrlVelForce inp vel := by
  cases inp; rfl

theorem ctrlClamp_jumpDown_irrel (inp : CtrlIn) (b : Bool) (v : ℚ × ℚ) :
    ctrlClamp { inp with jumpDown := b } v = ctrlClamp inp v := by
  cases inp; rfl

theorem ctrlClamp_snd (inp : CtrlIn) (v : ℚ × ℚ) : (ctrlClamp inp v).2 = v.2 := by
  unfold ctrlClamp
  dsimp only
  split_ifs <;> rfl

theorem ctrlVelForce_fst_snd (inp : CtrlIn) (vel : ℚ × ℚ) :
    ((ctrlVelForce inp vel).1).2 = vel.2 := by
  unfold ctrlVelForce
  split_ifs <;> rfl

theorem playerController_vel (inp : CtrlIn) (js : ℚ) (vel : ℚ × ℚ)
    (facing : Int) (jwd : Bool) :
    (playerController inp js vel facing jwd).vel =
      (if (inp.jumpDown && !jwd) && inp.grounded then
        ((ctrlClamp inp (ctrlVelForce inp vel).1).1, -js)
      else ctrlClamp inp (ctrlVelForce inp vel).1) := rfl

/-- C3: on a jump press-edge (down now, not down last tick) while
grounded, the vertical velocity is overwritten to exactly -jumpStrength;
the horizontal output is unaffected by the jump key; the jump is refused
while airborne and refused while the key is merely held, in both cases
leaving the vertical velocity untouched by the controller. -/
theorem jump_edge_grounded (inp : CtrlIn) (js : ℚ) (vel : ℚ × ℚ)
    (facing : Int) (jwd : Bool) :
    ((inp.jumpDown = true ∧ jwd = false ∧ inp.grounded = true) →
      (playerController inp js vel facing jwd).vel.2 = -js) ∧
    (playerController inp js vel facing jwd).vel.1 =
      (playerController { inp with jumpDown := false } js vel facing jwd).vel.1 ∧
    (inp.grounded = false →
      (playerController inp js vel facing jwd).vel.2 = vel.2) ∧
    (jwd = true → (playerController inp js vel facing jwd).vel.2 = vel.2) := by
  obtain ⟨l, r, j, g⟩ := inp
  refine ⟨?_, ?_, ?_, ?_⟩
  · rintro ⟨hj, hw, hg⟩
    dsimp only at hj hg
    subst hj; subst hw; subst hg
    rfl
  · cases j <;> cases jwd <;> cases g <;> rfl
  · intro hg
    dsimp only at hg
    subst hg
    cases j <;> cases jwd <;>
      · show (ctrlClamp ⟨l, r, _, false⟩ (ctrlVelForce ⟨l, r, _, false⟩ vel).1).2 = vel.2
        rw [ctrlClamp_snd, ctrlVelForce_fst_snd]
  · intro hw
    subst hw
    cases j <;>
      · show (ctrlClamp ⟨l, r, _, g⟩ (ctrlVelForce ⟨l, r, _, g⟩ vel).1).2 = vel.2
        rw [ctrlClamp_snd, ctrlVelForce_fst_snd]

/-- C3 witness: the spec scenario, grounded with jumpStrength 18 and
incoming velocity (3, 0): the press-edge yields vertical velocity -18 with
the horizontal velocity unchanged. -/
theorem jump_edge_grounded_witness :
    (jumpIn.jumpDown = true ∧ jumpIn.grounded = true) ∧
    (playerController jumpIn 18 (3, 0) 1 false).vel.2 = -18 ∧
    (playerController jumpIn 18 (3, 0) 1 false).vel.1 = 3 := by
  have habs : |(3 : ℚ)| = 3 := abs_of_nonneg (by norm_num)
  refine ⟨⟨rfl, rfl⟩,
    (jump_edge_grounded jumpIn 18 (3, 0) 1 false).1 ⟨rfl, rfl, rfl⟩, ?_⟩
  rw [playerController_vel]
  norm_num [jumpIn, ctrlVelForce, ctrlClamp, ctrlAxis, habs, maxRunSpeed]

theorem ctrlClamp_abs_le (inp : CtrlIn) (v : ℚ × ℚ) :
    |(ctrlClamp inp v).1| ≤ (if inp.grounded then maxRunSpeed else maxAirSpeed) := by
  obtain ⟨l, r, j, g⟩ := inp
  rcases v with ⟨vx, vy⟩
  cases g
  · show |(if vx > maxAirSpeed then (maxAirSpeed, vy)
        else if vx < -maxAirSpeed then (-maxAirSpeed, vy)
        else (vx, vy)).1| ≤ maxAirSpeed
    split_ifs with h1 h2
    · dsimp only; rw [abs_le]; constructor <;> norm_num [maxAirSpeed]
    · dsimp only; rw [abs_le]; constructor <;> norm_num [maxAirSpeed]
    · dsimp only; rw [abs_le]
      exact ⟨not_lt.mp h2, not_lt.mp h1⟩
  · show |(if vx > maxRunSpeed then (maxRunSpeed, vy)
        else if vx < -maxRunSpeed then (-maxRunSpeed, vy)
        else (vx, vy)).1| ≤ maxRunSpeed
    split_ifs with h1 h2
    · dsimp only; rw [abs_le]; constructor <;> norm_num [maxRunSpeed]
    · dsimp only; rw [abs_le]; constructor <;> norm_num [maxRunSpeed]
    · dsimp only; rw [abs_le]
      exact ⟨not_lt.mp h2, not_lt.mp h1⟩

/-- C4 (amended): the hard clamp runs inside the controller, before the
integration step: the horizontal speed leaving the controller never
exceeds the ground cap when grounded nor the air cap when airborne, for
any input and incoming velocity. -/
theorem speed_cap_controller_amended (inp : CtrlIn) (js : ℚ) (vel : ℚ × ℚ)
    (facing : Int) (jwd : Bool) :
    |(playerController inp js vel facing jwd).vel.1| ≤
      (if inp.grounded then maxRunSpeed else maxAirSpeed) := by
  rw [playerController_vel]
  cases hb : (inp.jumpDown && !jwd) && inp.grounded <;>
    exact ctrlClamp_abs_le inp (ctrlVelForce inp vel).1

/-- C4 (counterexample to the claim as stated): running right at the
ground cap, the controller leaves velocity 9.5 and accumulates the
acceleration force, and the physics integration that follows in the same
tick raises the post-step horizontal speed above the ground cap while the
player is still grounded. -/
theorem speed_cap_post_step_cex :
    runRightIn.grounded = true ∧
    (playerController runRightIn 22 (19/2, 0) 1 false).vel.1 = 19/2 ∧
    (playerController runRightIn 22 (19/2, 0) 1 false).forcePerMassX = 2/625 ∧
    maxRunSpeed <
      integrateVelX 0.003 (50/3)
        (playerController runRightIn 22 (19/2, 0) 1 false).vel.1
        (playerController runRightIn 22 (19/2, 0) 1 false).forcePerMassX := by
  have h1 : (playerController runRightIn 22 (19/2, 0) 1 false).vel.1 = 19/2 := by
    rw [playerController_vel]
    norm_num [runRightIn, ctrlVelForce, ctrlClamp, ctrlAxis, maxRunSpeed]
  have h2 : (playerController runRightIn 22 (19/2, 0) 1 false).forcePerMassX = 2/625 := by
    show (ctrlVelForce runRightIn (19/2, 0)).2 = 2/625
    norm_num [runRightIn, ctrlVelForce, ctrlAxis]
  refine ⟨rfl, h1, h2, ?_⟩
  rw [h1, h2]
  norm_num [integrateVelX, maxRunSpeed]

/-- C6 (amended): the hover-mode velocity is clamped per axis: each
component lies in [-speed, speed], and whenever a component of
0.06 * (target - position) already fits the band it is passed through
unchanged (proportional control); the vector magnitude is not capped at
speed (see the counterexample). -/
theorem hover_component_clamp_amended (ai : MonsterAIState) (mx my oscX oscY : ℚ)
    (hs : 0 ≤ ai.speed) :
    -ai.speed ≤ (flyingHoverVel ai mx my oscX oscY).1 ∧
    (flyingHoverVel ai mx my oscX oscY).1 ≤ ai.speed ∧
    -ai.speed ≤ (flyingHoverVel ai mx my oscX oscY).2 ∧
    (flyingHoverVel ai mx my oscX oscY).2 ≤ ai.speed ∧
    (|(ai.originX + oscX * 70 - mx) * 0.06| ≤ ai.speed →
      (flyingHoverVel ai mx my oscX oscY).1 =
        (ai.originX + oscX * 70 - mx) * 0.06) := by
  refine ⟨le_max_left _ _, ?_, le_max_left _ _, ?_, ?_⟩
  · exact max_le (by linarith) (min_le_right _ _)
  · exact max_le (by linarith) (min_le_right _ _)
  · intro hband
    rw [abs_le] at hband
    simp only [flyingHoverVel, clamp]
    rw [min_eq_left hband.2, max_eq_right hband.1]

theorem hover_vel_monster3_eval :
    flyingHoverVel monster3AI 5500 140 0 0 = (13/5, 13/5) := by
  norm_num [flyingHoverVel, clamp, monster3AI, max_def, min_def]

/-- C6 witness for the amended clamp bound, at the flying monster of the
level with the hover target 100 units up-range of the body. -/
theorem hover_component_clamp_amended_witness :
    0 ≤ monster3AI.speed ∧
    (flyingHoverVel monster3AI 5500 140 0 0).1 ≤ monster3AI.speed :=
  ⟨by norm_num [monster3AI],
   (hover_component_clamp_amended monster3AI 5500 140 0 0
      (by norm_num [monster3AI])).2.1⟩

/-- C6 (counterexample to the claim as stated): with the player far away
(hover mode) and the target 100 units away on both axes, both components
clamp to speed = 2.6, so the velocity magnitude is speed * sqrt 2 and its
square exceeds speed squared; the set speed does exceed the AI speed
parameter, because the clamp is per component, not on the magnitude. -/
theorem hover_speed_cex :
    ¬ flyingChaseCond 1000 300 5500 140 (monster3AI.chaseRadius.getD 320) ∧
    flyingHoverVel monster3AI 5500 140 0 0 = (13/5, 13/5) ∧
    monster3AI.speed ^ 2 <
      (flyingHoverVel monster3AI 5500 140 0 0).1 ^ 2 +
      (flyingHoverVel monster3AI 5500 140 0 0).2 ^ 2 := by
  refine ⟨?_, hover_vel_monster3_eval, ?_⟩
  · intro hc
    have h2 := hc.2
    norm_num [monster3AI] at h2
  · rw [hover_vel_monster3_eval]
    norm_num [monster3AI]

theorem patrolTick_window (originX range speed : ℚ) (s : PatrolState)
    (hsp : 0 ≤ speed) (hr : 0 ≤ range) (hd : s.dir = 1 ∨ s.dir = -1)
    (hlo : originX - range / 2 - speed ≤ s.x)
    (hhi : s.x ≤ originX + range / 2 + speed) :
    ((patrolTick originX range speed s).dir = 1 ∨
      (patrolTick originX range speed s).dir = -1) ∧
    originX - range / 2 - speed ≤ (patrolTick originX range speed s).x ∧
    (patrolTick originX range speed s).x ≤ originX + range / 2 + speed := by
  obtain ⟨x, d⟩ := s
  dsimp only at hd hlo hhi
  unfold patrolTick patrolFlip
  dsimp only
  split_ifs with hgt hlt
  · refine ⟨Or.inr rfl, ?_, ?_⟩ <;> push_cast <;> linarith
  · refine ⟨Or.inl rfl, ?_, ?_⟩ <;> push_cast <;> linarith
  · rcases hd with h | h <;> subst h
    · refine ⟨Or.inl rfl, ?_, ?_⟩ <;> push_cast <;> linarith
    · refine ⟨Or.inr rfl, ?_, ?_⟩ <;> push_cast <;> linarith

/-- C5 (amended): the flip rule alone never moves the body, so the window
that is actually invariant is the patrol window enlarged by one tick of
travel: starting inside it with direction plus or minus one, the position
after any number of ticks stays within
[originX - range/2 - speed, originX + range/2 + speed]; any overshoot is
bounded by speed and self-corrects, so the NPC is never overshoot-locked. -/
theorem patrol_window_slack_amended (originX range speed : ℚ) (s : PatrolState)
    (n : Nat) (hsp : 0 ≤ speed) (hr : 0 ≤ range) (hd : s.dir = 1 ∨ s.dir = -1)
    (hlo : originX - range / 2 - speed ≤ s.x)
    (hhi : s.x ≤ originX + range / 2 + speed) :
    originX - range / 2 - speed ≤ (patrolRun originX range speed s n).x ∧
    (patrolRun originX range speed s n).x ≤ originX + range / 2 + speed := by
  have key : ∀ m : Nat, ((patrolRun originX range speed s m).dir = 1 ∨
      (patrolRun originX range speed s m).dir = -1) ∧
      originX - range / 2 - speed ≤ (patrolRun originX range speed s m).x ∧
      (patrolRun originX range speed s m).x ≤ originX + range / 2 + speed := by
    intro m
    induction m with
    | zero => exact ⟨hd, hlo, hhi⟩
    | succ k ih =>
      exact patrolTick_window originX range speed _ hsp hr ih.1 ih.2.1 ih.2.2
  exact (key n).2

/-- C5 amended witness: monster 1 parameters, 55 ticks from its spawn. -/
theorem patrol_window_slack_amended_witness :
    0 ≤ (2.2 : ℚ) ∧
    (1200 - 240 / 2 - 2.2 ≤
        (patrolRun 1200 240 2.2 { x := 1200, dir := 1 } 55).x ∧
      (patrolRun 1200 240 2.2 { x := 1200, dir := 1 } 55).x ≤
        1200 + 240 / 2 + 2.2) :=
  ⟨by norm_num,
   patrol_window_slack_amended 1200 240 2.2 { x := 1200, dir := 1 } 55
     (by norm_num) (by norm_num) (Or.inl rfl) (by norm_num) (by norm_num)⟩

theorem patrol_demo_closed (k : Nat) (hk : k ≤ 55) :
    patrolRun 1200 240 2.2 { x := 1200, dir := 1 } k =
      { x := 1200 + 2.2 * (k : ℚ), dir := 1 } := by
  induction k with
  | zero =>
    show ({ x := 1200, dir := 1 } : PatrolState) = _
    norm_num
  | succ n ih =>
    have hn : n ≤ 55 := Nat.le_of_succ_le hk
    have hn54 : (n : ℚ) ≤ 54 := by
      have h54 : n ≤ 54 := by omega
      exact_mod_cast h54
    have hn0 : (0 : ℚ) ≤ (n : ℚ) := Nat.cast_nonneg n
    have h22 : 2.2 * (n : ℚ) ≤ 2.2 * 54 :=
      mul_le_mul_of_nonneg_left hn54 (by norm_num)
    show patrolTick 1200 240 2.2 (patrolRun 1200 240 2.2 { x := 1200, dir := 1 } n) = _
    rw [ih hn]
    unfold patrolTick patrolFlip
    dsimp only
    rw [if_neg (show ¬ ((1200 + 2.2 * (n : ℚ)) > 1200 + 240 / 2) by
          push_neg; linarith),
        if_neg (show ¬ ((1200 + 2.2 * (n : ℚ)) < 1200 - 240 / 2) by
          push_neg; linarith)]
    simp only [PatrolState.mk.injEq, and_true]
    push_cast
    ring

/-- C5 (counterexample to the claim as stated): monster 1 patrols from
x = 1200 with speed 2.2 and window [1080, 1320]; after 55 ticks its
position is 1321, outside the window, and the flip rule applied at that
position only flips the direction to -1 without moving the body back
inside, so the position right after the rule is applied still violates
the stated window invariant. -/
theorem patrol_window_cex :
    (patrolRun 1200 240 2.2 { x := 1200, dir := 1 } 55).x = 1321 ∧
    ¬ (patrolRun 1200 240 2.2 { x := 1200, dir := 1 } 55).x ≤ 1200 + 240 / 2 ∧
    patrolFlip 1200 240 (patrolRun 1200 240 2.2 { x := 1200, dir := 1 } 55).dir
      (patrolRun 1200 240 2.2 { x := 1200, dir := 1 } 55).x = -1 := by
  have h := patrol_demo_closed 55 (le_refl 55)
  rw [h]
  refine ⟨?_, ?_, ?_⟩
  · show (1200 + 2.2 * ((55 : ℕ) : ℚ)) = 1321
    push_cast
    norm_num
  · show ¬ (1200 + 2.2 * ((55 : ℕ) : ℚ)) ≤ 1200 + 240 / 2
    push_cast
    norm_num
  · show patrolFlip 1200 240 1 (1200 + 2.2 * ((55 : ℕ) : ℚ)) = -1
    unfold patrolFlip
    dsimp only
    rw [if_pos (show (1200 + 2.2 * ((55 : ℕ) : ℚ)) > 1200 + 240 / 2 by
      push_cast; norm_num)]

/-- C7 (counterexample to the claim as stated): the fire flag is re-armed
by every keydown event, and a key held across ticks produces further
keydown events (browser auto-repeat, with e.repeat never consulted), so
two keydown events with no intervening keyup yield two projectiles: a held
fire key does auto-repeat. Without a further keydown the cleared flag
stays false and no second shot occurs. -/
theorem fire_rearm_cex :
    (fireRun [[KeyEvent.down KeyCode.keyK], [KeyEvent.down KeyCode.keyK]]
        fireInit).projectiles.length = 2 ∧
    (fireRun [[KeyEvent.down KeyCode.keyK], []]
        fireInit).projectiles.length = 1 := by
  constructor <;> rfl

/-- C7 (amended): fire is consumed once per keydown event, not once per
physical press: when the flag is set, the tick spawns exactly one
projectile at the torso position offset by facing times 0.6 player-widths
with velocity (facing * 15, 0), clears the flag, and a following tick with
no new keydown event spawns nothing. -/
theorem fire_consume_per_keydown_amended (s : FireState)
    (h : s.keys.keyK = true) :
    (fireTick [] s).projectiles =
      createProjectile s.playerX s.playerY s.facing :: s.projectiles ∧
    (fireTick [] s).keys.keyK = false ∧
    (fireTick [] (fireTick [] s)).projectiles = (fireTick [] s).projectiles ∧
    createProjectile s.playerX s.playerY s.facing =
      { posX := s.playerX + (s.facing : ℚ) * 24, posY := s.playerY,
        velX := (s.facing : ℚ) * 15, velY := 0 } := by
  obtain ⟨ks, ps, px, py, f⟩ := s
  dsimp only at h
  have h1 : fireTick [] (⟨ks, ps, px, py, f⟩ : FireState) =
      ⟨setKey ks KeyCode.keyK false, createProjectile px py f :: ps, px, py, f⟩ := by
    unfold fireTick fireCheck
    simp only [List.foldl_nil]
    rw [if_pos h]
  refine ⟨?_, ?_, ?_, ?_⟩
  · rw [h1]
  · rw [h1]
    rfl
  · rw [h1]
    rfl
  · have h24 : (f : ℚ) * 40 * 0.6 = (f : ℚ) * 24 := by
      rw [mul_assoc]
      norm_num
    unfold createProjectile PLAYER_WIDTH
    rw [h24]

/-- C7 amended witness: the armed initial state fires exactly once. -/
theorem fire_consume_per_keydown_amended_witness :
    fireArmed.keys.keyK = true ∧
    (fireTick [] fireArmed).projectiles =
      createProjectile fireArmed.playerX fireArmed.playerY fireArmed.facing ::
        fireArmed.projectiles :=
  ⟨rfl, (fire_consume_per_keydown_amended fireArmed rfl).1⟩

/-! Lemmas about the collision handler and the tick state machine. -/

theorem processPair_cases (t h : Nat) (s : SimState) (p : Pair) :
    (∃ pid mid,
      processPair t h s p =
        { s with
          worldBodies := removeById (removeById s.worldBodies pid) mid
          projectiles := removeById s.projectiles pid
          monsters := removeById s.monsters mid
          monsterAI := removeKey s.monsterAI mid
          monsterStyleSeed := removeKey s.monsterStyleSeed mid }) ∨
    (∃ g : Option GameState,
      processPair t h s p = { s with pendingGameState := g }) := by
  unfold processPair
  dsimp only
  split_ifs <;>
    first
      | exact Or.inl ⟨_, _, rfl⟩
      | exact Or.inr ⟨_, rfl⟩

theorem processPair_gameState (t h : Nat) (s : SimState) (p : Pair) :
    (processPair t h s p).gameState = s.gameState := by
  rcases processPair_cases t h s p with ⟨pid, mid, he⟩ | ⟨g, he⟩ <;> rw [he]

theorem processPair_gameStateRef (t h : Nat) (s : SimState) (p : Pair) :
    (processPair t h s p).gameStateRef = s.gameStateRef := by
  rcases processPair_cases t h s p with ⟨pid, mid, he⟩ | ⟨g, he⟩ <;> rw [he]

theorem processPair_pending_stable (t h : Nat) (s : SimState) (p : Pair)
    (href : s.gameStateRef ≠ GameState.playing) :
    (processPair t h s p).pendingGameState = s.pendingGameState := by
  unfold processPair
  dsimp only
  split_ifs <;> rfl

theorem collisionBatch_gameState (t h : Nat) (ps : List Pair) :
    ∀ s : SimState, (collisionBatch t h ps s).gameState = s.gameState := by
  induction ps with
  | nil => intro s; rfl
  | cons p rest ih =>
    intro s
    show (collisionBatch t h rest (processPair t h s p)).gameState = s.gameState
    rw [ih, processPair_gameState]

theorem collisionBatch_gameStateRef (t h : Nat) (ps : List Pair) :
    ∀ s : SimState, (collisionBatch t h ps s).gameStateRef = s.gameStateRef := by
  induction ps with
  | nil => intro s; rfl
  | cons p rest ih =>
    intro s
    show (collisionBatch t h rest (processPair t h s p)).gameStateRef = s.gameStateRef
    rw [ih, processPair_gameStateRef]

theorem collisionBatch_pending_stable (t h : Nat) (ps : List Pair) :
    ∀ s : SimState, s.gameStateRef ≠ GameState.playing →
      (collisionBatch t h ps s).pendingGameState = s.pendingGameState := by
  induction ps with
  | nil => intro s _; rfl
  | cons p rest ih =>
    intro s href
    have hr : (processPair t h s p).gameStateRef ≠ GameState.playing := by
      rw [processPair_gameStateRef]; exact href
    show (collisionBatch t h rest (processPair t h s p)).pendingGameState = _
    rw [ih _ hr, processPair_pending_stable t h s p href]

theorem fallCheck_gameState (y : ℚ) (s : SimState) :
    (fallCheck y s).gameState = s.gameState := by
  unfold fallCheck
  split_ifs <;> rfl

theorem fallCheck_gameStateRef (y : ℚ) (s : SimState) :
    (fallCheck y s).gameStateRef = s.gameStateRef := by
  unfold fallCheck
  split_ifs <;> rfl

theorem fallCheck_pending_stable (y : ℚ) (s : SimState)
    (href : s.gameStateRef ≠ GameState.playing) :
    (fallCheck y s).pendingGameState = s.pendingGameState := by
  unfold fallCheck
  split_ifs with hc
  · exact absurd hc.2 href
  · rfl

theorem fallCheck_no_fall (y : ℚ) (s : SimState)
    (hy : ¬ y > WORLD_HEIGHT + 260) : fallCheck y s = s := by
  unfold fallCheck
  rw [if_neg]
  intro hc
  exact hy hc.1

theorem fallCheck_pending_gameOver (y : ℚ) (s : SimState)
    (h : s.pendingGameState = some GameState.gameOver) :
    (fallCheck y s).pendingGameState = some GameState.gameOver := by
  unfold fallCheck
  split_ifs
  · rfl
  · exact h

theorem reactFlush_of_none (s : SimState) (h : s.pendingGameState = none) :
    reactFlush s = s := by
  unfold reactFlush
  rw [h]

theorem reactFlush_of_some (s : SimState) (g : GameState)
    (h : s.pendingGameState = some g) :
    reactFlush s =
      { s with gameState := g, gameStateRef := g, pendingGameState := none } := by
  unfold reactFlush
  rw [h]

theorem runTick_inv (i : TickInput) (s : SimState) (hs : TickInv s) :
    TickInv (runTick i s) := by
  obtain ⟨h1, h2⟩ := hs
  show TickInv (reactFlush (fallCheck i.playerY (collisionBatch torsoId headId i.pairs s)))
  cases hp : (fallCheck i.playerY (collisionBatch torsoId headId i.pairs s)).pendingGameState with
  | some g =>
    rw [reactFlush_of_some _ g hp]
    exact ⟨rfl, rfl⟩
  | none =>
    rw [reactFlush_of_none _ hp]
    refine ⟨?_, hp⟩
    rw [fallCheck_gameState, fallCheck_gameStateRef, collisionBatch_gameState,
      collisionBatch_gameStateRef]
    exact h1

theorem runTick_terminal (i : TickInput) (s : SimState) (hs : TickInv s)
    (hterm : s.gameState ≠ GameState.playing) :
    (runTick i s).gameState = s.gameState ∧ TickInv (runTick i s) := by
  obtain ⟨h1, h2⟩ := hs
  have href : s.gameStateRef ≠ GameState.playing := by rw [h1]; exact hterm
  have hbr : (collisionBatch torsoId headId i.pairs s).gameStateRef ≠ GameState.playing := by
    rw [collisionBatch_gameStateRef]; exact href
  have hfp : (fallCheck i.playerY (collisionBatch torsoId headId i.pairs s)).pendingGameState
      = none := by
    rw [fallCheck_pending_stable _ _ hbr, collisionBatch_pending_stable _ _ _ _ href]
    exact h2
  have hrt : runTick i s = fallCheck i.playerY (collisionBatch torsoId headId i.pairs s) := by
    show reactFlush _ = _
    exact reactFlush_of_none _ hfp
  rw [hrt]
  refine ⟨?_, ⟨?_, hfp⟩⟩
  · rw [fallCheck_gameState, collisionBatch_gameState]
  · rw [fallCheck_gameState, fallCheck_gameStateRef, collisionBatch_gameState,
      collisionBatch_gameStateRef]
    exact h1

theorem runTicks_inv (L : List TickInput) :
    ∀ s : SimState, TickInv s → TickInv (runTicks L s) := by
  induction L with
  | nil => intro s hs; exact hs
  | cons i rest ih => intro s hs; exact ih _ (runTick_inv i s hs)

theorem runTicks_terminal (L : List TickInput) :
    ∀ s : SimState, TickInv s → s.gameState ≠ GameState.playing →
      (runTicks L s).gameState = s.gameState := by
  induction L with
  | nil => intro s _ _; rfl
  | cons i rest ih =>
    intro s hs hterm
    obtain ⟨hg, hinv⟩ := runTick_terminal i s hs hterm
    show (runTicks rest (runTick i s)).gameState = s.gameState
    rw [ih _ hinv (by rw [hg]; exact hterm), hg]

theorem runTicks_append (a b : List TickInput) (s : SimState) :
    runTicks (a ++ b) s = runTicks b (runTicks a s) := by
  induction a generalizing s with
  | nil => rfl
  | cons i rest ih => exact ih (runTick i s)

/-- C1: the game state is write-once per run: along any tick sequence from
the freshly built world, once the committed state has left playing (by a
collision event or the fall check), every later tick leaves it unchanged,
so it transitions at most once per run to a terminal value. -/
theorem gameState_write_once (inputs : List TickInput) (n m : Nat) (hnm : n ≤ m)
    (hterm : (runTicks (inputs.take n) initSim).gameState ≠ GameState.playing) :
    (runTicks (inputs.take m) initSim).gameState =
      (runTicks (inputs.take n) initSim).gameState := by
  have hsplit : inputs.take m = inputs.take n ++ (inputs.drop n).take (m - n) := by
    rw [← List.take_add]
    congr 1
    omega
  rw [hsplit, runTicks_append]
  exact runTicks_terminal _ _ (runTicks_inv _ _ ⟨rfl, rfl⟩) hterm

theorem processPair_spikeTorso (s : SimState) (h : s.gameStateRef = GameState.playing) :
    processPair torsoId headId s spikeTorsoPair =
      { s with pendingGameState := some GameState.gameOver } := by
  unfold processPair spikeTorsoPair torsoBody spikeBody torsoId headId
  simp [h]

theorem processPair_goalTorso (s : SimState) (h : s.gameStateRef = GameState.playing) :
    processPair torsoId headId s goalTorsoPair =
      { s with pendingGameState := some GameState.won } := by
  unfold processPair goalTorsoPair torsoBody goalBody torsoId headId
  simp [h]

/-- C1 witness: a spike contact in tick 1 turns the state to gameOver, and
after the goal contact of tick 2 the state is unchanged. -/
theorem gameState_write_once_witness :
    ((1 : Nat) ≤ 2 ∧
      (runTicks (c1demoInputs.take 1) initSim).gameState ≠ GameState.playing) ∧
    (runTicks (c1demoInputs.take 2) initSim).gameState =
      (runTicks (c1demoInputs.take 1) initSim).gameState := by
  have h1 : (runTicks (c1demoInputs.take 1) initSim).gameState = GameState.gameOver := by
    show (reactFlush (fallCheck 300
        (collisionBatch torsoId headId [spikeTorsoPair] initSim))).gameState = _
    rw [show collisionBatch torsoId headId [spikeTorsoPair] initSim =
        processPair torsoId headId initSim spikeTorsoPair from rfl]
    rw [processPair_spikeTorso initSim rfl]
    rw [fallCheck_no_fall 300 _ (by norm_num [WORLD_HEIGHT])]
    rw [reactFlush_of_some _ GameState.gameOver rfl]
  exact ⟨⟨by omega, by rw [h1]; decide⟩,
    gameState_write_once c1demoInputs 1 2 (by omega) (by rw [h1]; decide)⟩

/-- C2 (counterexample to the claim as stated): within one collision
batch the guard reads the stale gameStateRef, which the deferred React
commit has not yet updated, so a later pair in the same batch is not a
no-op: after a spike pair the pending transition is gameOver, but a goal
pair later in the same batch overwrites it, and the tick commits won.
Last-applied wins, not first-applied. -/
theorem collision_last_write_wins_cex :
    (collisionBatch torsoId headId [spikeTorsoPair] initSim).pendingGameState =
      some GameState.gameOver ∧
    (collisionBatch torsoId headId [spikeTorsoPair, goalTorsoPair]
        initSim).pendingGameState = some GameState.won ∧
    (runTick { pairs := [spikeTorsoPair, goalTorsoPair], playerY := 300 }
        initSim).gameState = GameState.won ∧
    GameState.won ≠ GameState.gameOver := by
  have hb1 : collisionBatch torsoId headId [spikeTorsoPair] initSim =
      { initSim with pendingGameState := some GameState.gameOver } :=
    processPair_spikeTorso initSim rfl
  have hb2 : collisionBatch torsoId headId [spikeTorsoPair, goalTorsoPair] initSim =
      { initSim with pendingGameState := some GameState.won } := by
    show processPair torsoId headId
        (processPair torsoId headId initSim spikeTorsoPair) goalTorsoPair = _
    rw [processPair_spikeTorso initSim rfl]
    exact processPair_goalTorso _ rfl
  refine ⟨by rw [hb1], by rw [hb2], ?_, by decide⟩
  show (reactFlush (fallCheck 300
      (collisionBatch torsoId headId [spikeTorsoPair, goalTorsoPair] initSim))).gameState = _
  rw [hb2, fallCheck_no_fall 300 _ (by norm_num [WORLD_HEIGHT]),
    reactFlush_of_some _ GameState.won rfl]

theorem processPair_playerTerminal (s : SimState) (pr : Pair) (g : GameState)
    (hpr : PlayerTerminalPair pr g) (h : s.gameStateRef = GameState.playing) :
    processPair torsoId headId s pr = { s with pendingGameState := some g } := by
  have hth : ¬ ((headId : Nat) = torsoId) := by decide
  have htt : ¬ ((torsoId : Nat) = headId) := by decide
  unfold PlayerTerminalPair TerminalLabel at hpr
  rcases hpr with ⟨hbl, hid, hb1, hb2, hout⟩ | ⟨hbl, hid, hb1, hb2, hout⟩ <;>
    rcases hout with ⟨hlb, rfl⟩ | ⟨hlb, rfl⟩ | ⟨hlb, rfl⟩ <;>
    rcases hid with hid | hid <;>
    simp [processPair, hbl, hlb, hid, hb1, hb2, h, hth, htt]

theorem collisionBatch_append (t h : Nat) (a b : List Pair) (s : SimState) :
    collisionBatch t h (a ++ b) s = collisionBatch t h b (collisionBatch t h a s) := by
  unfold collisionBatch
  rw [List.foldl_append]

theorem collisionBatch_death (ps : List Pair) :
    ∀ s : SimState, s.gameStateRef = GameState.playing → ps ≠ [] →
      (∀ pr ∈ ps, PlayerTerminalPair pr GameState.gameOver) →
      (collisionBatch torsoId headId ps s).pendingGameState =
        some GameState.gameOver := by
  induction ps with
  | nil => intro s _ hne _; exact absurd rfl hne
  | cons p rest ih =>
    intro s href _ hall
    show (collisionBatch torsoId headId rest
        (processPair torsoId headId s p)).pendingGameState = _
    rw [processPair_playerTerminal s p GameState.gameOver
      (hall p (List.mem_cons_self p rest)) href]
    cases rest with
    | nil => rfl
    | cons q r2 =>
      exact ih _ href (List.cons_ne_nil q r2)
        (fun pr hpr => hall pr (List.mem_cons_of_mem p hpr))

/-- C2 (amended): within one tick every player-terminal pair (Spike,
Monster or Goal against the torso or head, in either body order) passes
the guard against the stale ref and overwrites the batched setGameState
value, so the last such pair of the batch determines the committed
terminal state, deterministically in the batch order; and a nonempty batch
of only Spike/Monster player contacts yields GameOver exactly once: the
state commits gameOver after that tick and no later tick changes it. -/
theorem player_terminal_batch_amended :
    (∀ (ps : List Pair) (pr : Pair) (g : GameState) (s : SimState),
      s.gameStateRef = GameState.playing →
      (∀ q ∈ ps, ∃ g2, PlayerTerminalPair q g2) →
      PlayerTerminalPair pr g →
      (collisionBatch torsoId headId (ps ++ [pr]) s).pendingGameState = some g) ∧
    (∀ (ps : List Pair) (y : ℚ) (rest : List TickInput),
      ps ≠ [] →
      (∀ pr ∈ ps, PlayerTerminalPair pr GameState.gameOver) →
      (runTicks ({ pairs := ps, playerY := y } :: rest) initSim).gameState =
        GameState.gameOver) := by
  constructor
  · intro ps pr g s href hall hpr
    rw [collisionBatch_append]
    show (processPair torsoId headId
        (collisionBatch torsoId headId ps s) pr).pendingGameState = some g
    rw [processPair_playerTerminal _ pr g hpr
      (by rw [collisionBatch_gameStateRef]; exact href)]
  · intro ps y rest hne hall
    have hbatch : (collisionBatch torsoId headId ps initSim).pendingGameState =
        some GameState.gameOver :=
      collisionBatch_death ps initSim rfl hne hall
    have hfp : (fallCheck y (collisionBatch torsoId headId ps
        initSim)).pendingGameState = some GameState.gameOver :=
      fallCheck_pending_gameOver y _ hbatch
    have htick : (runTick { pairs := ps, playerY := y } initSim).gameState =
        GameState.gameOver ∧
        TickInv (runTick { pairs := ps, playerY := y } initSim) := by
      show (reactFlush (fallCheck y
            (collisionBatch torsoId headId ps initSim))).gameState = _ ∧
          TickInv (reactFlush (fallCheck y
            (collisionBatch torsoId headId ps initSim)))
      rw [reactFlush_of_some _ GameState.gameOver hfp]
      exact ⟨rfl, rfl, rfl⟩
    show (runTicks rest
        (runTick { pairs := ps, playerY := y } initSim)).gameState =
      GameState.gameOver
    rw [runTicks_terminal rest _ htick.2 (by rw [htick.1]; decide), htick.1]

/-- C2 amended witness: a spike-torso pair followed last by a reversed
goal-head pair commits won (last-applied wins), and a batch of a reversed
monster-head pair plus a spike-torso pair commits gameOver exactly once. -/
theorem player_terminal_batch_amended_witness :
    PlayerTerminalPair goalHeadPairRev GameState.won ∧
    (collisionBatch torsoId headId ([spikeTorsoPair] ++ [goalHeadPairRev])
        initSim).pendingGameState = some GameState.won ∧
    (runTicks ({ pairs := [monsterHeadPairRev, spikeTorsoPair], playerY := 300 } :: [])
        initSim).gameState = GameState.gameOver := by
  have hspike : PlayerTerminalPair spikeTorsoPair GameState.gameOver :=
    Or.inl ⟨rfl, Or.inl rfl, by decide, by decide, Or.inl ⟨rfl, rfl⟩⟩
  have hgoal : PlayerTerminalPair goalHeadPairRev GameState.won :=
    Or.inr ⟨rfl, Or.inr rfl, by decide, by decide, Or.inr (Or.inr ⟨rfl, rfl⟩)⟩
  have hmon : PlayerTerminalPair monsterHeadPairRev GameState.gameOver :=
    Or.inr ⟨rfl, Or.inr rfl, by decide, by decide, Or.inr (Or.inl ⟨rfl, rfl⟩)⟩
  refine ⟨hgoal, ?_, ?_⟩
  · exact player_terminal_batch_amended.1 [spikeTorsoPair] goalHeadPairRev
      GameState.won initSim rfl
      (by
        intro q hq
        rw [List.mem_singleton] at hq
        subst hq
        exact ⟨GameState.gameOver, hspike⟩)
      hgoal
  · exact player_terminal_batch_amended.2 [monsterHeadPairRev, spikeTorsoPair] 300 []
      (by decide)
      (by
        intro pr hpr
        rcases List.mem_cons.mp hpr with h1 | h1
        · subst h1; exact hmon
        · rw [List.mem_singleton] at h1; subst h1; exact hspike)

/-! Identity-filter removal lemmas. -/

theorem removeById_cons (a : Body) (t : List Body) (i : Nat) :
    removeById (a :: t) i =
      if a.id != i then a :: removeById t i else removeById t i := by
  unfold removeById
  rw [List.filter_cons]

theorem removeById_eq_self (l : List Body) (i : Nat) (hi : i ∉ l.map Body.id) :
    removeById l i = l := by
  induction l with
  | nil => rfl
  | cons a t ih =>
    simp only [List.map_cons, List.mem_cons, not_or] at hi
    rw [removeById_cons,
      if_pos (by simp only [bne_iff_ne, ne_eq]; exact fun hh => hi.1 hh.symm),
      ih hi.2]

theorem removeById_length (l : List Body) (b : Body) (hb : b ∈ l)
    (hn : (l.map Body.id).Nodup) :
    (removeById l b.id).length + 1 = l.length := by
  induction l with
  | nil => cases hb
  | cons a t ih =>
    simp only [List.map_cons, List.nodup_cons] at hn
    rw [removeById_cons]
    rcases List.mem_cons.mp hb with hba | hbt
    · subst hba
      rw [if_neg (by simp), removeById_eq_self t b.id hn.1]
      rfl
    · have ha : (a.id != b.id) = true := by
        simp only [bne_iff_ne, ne_eq]
        intro hh
        exact hn.1 (by rw [hh]; exact List.mem_map_of_mem Body.id hbt)
      rw [if_pos ha, List.length_cons, List.length_cons, ← ih hbt hn.2]

theorem removeById_not_mem_id (l : List Body) (i : Nat) :
    ∀ b ∈ removeById l i, b.id ≠ i := by
  intro b hb
  unfold removeById at hb
  have h2 := List.of_mem_filter hb
  exact bne_iff_ne.mp h2

theorem mem_removeById (l : List Body) (b : Body) (i : Nat)
    (hb : b ∈ l) (hne : b.id ≠ i) : b ∈ removeById l i :=
  List.mem_filter.mpr ⟨hb, by simp only [bne_iff_ne, ne_eq]; exact hne⟩

theorem removeById_map_nodup (l : List Body) (i : Nat)
    (hn : (l.map Body.id).Nodup) : ((removeById l i).map Body.id).Nodup :=
  hn.sublist ((List.filter_sublist l).map Body.id)

theorem lookupKV_removeKey_self {α : Type} (l : List (Nat × α)) (i : Nat) :
    lookupKV (removeKey l i) i = none := by
  induction l with
  | nil => rfl
  | cons kv t ih =>
    obtain ⟨k, v⟩ := kv
    unfold removeKey
    rw [List.filter_cons]
    by_cases hk : k = i
    · rw [if_neg (by simp [hk])]
      exact ih
    · rw [if_pos (by simp only [bne_iff_ne, ne_eq]; exact hk)]
      show (if k = i then some v else lookupKV (List.filter _ t) i) = none
      rw [if_neg hk]
      exact ih

theorem lookupKV_removeKey_ne {α : Type} (l : List (Nat × α)) (i j : Nat)
    (hij : j ≠ i) : lookupKV (removeKey l i) j = lookupKV l j := by
  induction l with
  | nil => rfl
  | cons kv t ih =>
    obtain ⟨k, v⟩ := kv
    unfold removeKey
    rw [List.filter_cons]
    by_cases hk : k = i
    · rw [if_neg (by simp [hk])]
      rw [show lookupKV ((k, v) :: t) j = if k = j then some v else lookupKV t j
        from rfl]
      rw [if_neg (fun hh => hij (by rw [← hh]; exact hk))]
      exact ih
    · rw [if_pos (by simp only [bne_iff_ne, ne_eq]; exact hk)]
      show (if k = j then some v else lookupKV (List.filter _ t) j) =
        (if k = j then some v else lookupKV t j)
      by_cases hkj : k = j
      · rw [if_pos hkj, if_pos hkj]
      · rw [if_neg hkj, if_neg hkj]
        exact ih

theorem mem_removeKey {α : Type} (l : List (Nat × α)) (i : Nat) (kv : Nat × α)
    (h : kv ∈ removeKey l i) : kv ∈ l ∧ kv.1 ≠ i := by
  unfold removeKey at h
  have h2 := List.of_mem_filter h
  exact ⟨List.mem_of_mem_filter h, bne_iff_ne.mp h2⟩

/-- C8: every Projectile-Monster collision pair, in either body order as
the engine may report it, removes exactly one projectile and one monster
from the world bodies and the tracking collections (by identity, given
the engine-unique ids), both of the removed monster registry records are
gone afterwards, and the pair performs no player-terminal classification:
all game-state cells are untouched. -/
theorem projectile_monster_removal (s : SimState) (p m : Body) (pr : Pair)
    (horient : (pr.bodyA = p ∧ pr.bodyB = m) ∨ (pr.bodyA = m ∧ pr.bodyB = p))
    (hp : p.label = BodyLabel.projectile) (hm : m.label = BodyLabel.monster)
    (hpw : p ∈ s.worldBodies) (hmw : m ∈ s.worldBodies)
    (hwn : (s.worldBodies.map Body.id).Nodup)
    (hpp : p ∈ s.projectiles) (hpn : (s.projectiles.map Body.id).Nodup)
    (hmem : m ∈ s.monsters) (hmn : (s.monsters.map Body.id).Nodup) :
    (processPair torsoId headId s pr).worldBodies.length + 2 =
        s.worldBodies.length ∧
    (processPair torsoId headId s pr).projectiles.length + 1 =
        s.projectiles.length ∧
    (processPair torsoId headId s pr).monsters.length + 1 =
        s.monsters.length ∧
    (∀ q ∈ (processPair torsoId headId s pr).projectiles, q.id ≠ p.id) ∧
    (∀ q ∈ (processPair torsoId headId s pr).monsters, q.id ≠ m.id) ∧
    lookupKV (processPair torsoId headId s pr).monsterAI m.id = none ∧
    lookupKV (processPair torsoId headId s pr).monsterStyleSeed m.id = none ∧
    (processPair torsoId headId s pr).pendingGameState = s.pendingGameState ∧
    (processPair torsoId headId s pr).gameState = s.gameState ∧
    (processPair torsoId headId s pr).gameStateRef = s.gameStateRef := by
  have hne : p.id ≠ m.id := by
    intro hid
    have hpm : p = m := List.inj_on_of_nodup_map hwn hpw hmw hid
    rw [hpm, hm] at hp
    exact BodyLabel.noConfusion hp
  have hmp : ¬ (m.label = BodyLabel.projectile) := by
    rw [hm]
    exact fun hc => BodyLabel.noConfusion hc
  have hred : processPair torsoId headId s pr =
      { s with
        worldBodies := removeById (removeById s.worldBodies p.id) m.id
        projectiles := removeById s.projectiles p.id
        monsters := removeById s.monsters m.id
        monsterAI := removeKey s.monsterAI m.id
        monsterStyleSeed := removeKey s.monsterStyleSeed m.id } := by
    rcases horient with ⟨ha, hb⟩ | ⟨ha, hb⟩
    · unfold processPair
      dsimp only
      rw [ha, hb, if_pos (Or.inl ⟨hp, hm⟩), if_pos hp, if_pos hp]
    · unfold processPair
      dsimp only
      rw [ha, hb, if_pos (Or.inr ⟨hp, hm⟩), if_neg hmp, if_neg hmp]
  rw [hred]
  dsimp only
  refine ⟨?_, ?_, ?_, ?_, ?_, ?_, ?_, rfl, rfl, rfl⟩
  · have h1 : (removeById s.worldBodies p.id).length + 1 = s.worldBodies.length :=
      removeById_length _ p hpw hwn
    have hmw2 : m ∈ removeById s.worldBodies p.id :=
      mem_removeById _ m p.id hmw (Ne.symm hne)
    have hwn2 : ((removeById s.worldBodies p.id).map Body.id).Nodup :=
      removeById_map_nodup _ _ hwn
    have h2 : (removeById (removeById s.worldBodies p.id) m.id).length + 1 =
        (removeById s.worldBodies p.id).length :=
      removeById_length _ m hmw2 hwn2
    omega
  · exact removeById_length _ p hpp hpn
  · exact removeById_length _ m hmem hmn
  · exact removeById_not_mem_id _ _
  · exact removeById_not_mem_id _ _
  · exact lookupKV_removeKey_self _ _
  · exact lookupKV_removeKey_self _ _

/-- C8 witness: the concrete flight state with one projectile and
monster 1, exercised in both reported body orders: the pair removes both
and the AI record is gone. -/
theorem projectile_monster_removal_witness :
    pBody ∈ c8state.projectiles ∧
    (processPair torsoId headId c8state
        { bodyA := pBody, bodyB := monster1Body }).monsters.length + 1 =
      c8state.monsters.length ∧
    (processPair torsoId headId c8state
        { bodyA := monster1Body, bodyB := pBody }).monsters.length + 1 =
      c8state.monsters.length ∧
    lookupKV (processPair torsoId headId c8state
        { bodyA := monster1Body, bodyB := pBody }).monsterAI monster1Body.id = none :=
  ⟨by decide,
   (projectile_monster_removal c8state pBody monster1Body
      { bodyA := pBody, bodyB := monster1Body } (Or.inl ⟨rfl, rfl⟩) rfl rfl
      (by decide) (by decide) (by decide) (by decide) (by decide) (by decide)
      (by decide)).2.2.1,
   (projectile_monster_removal c8state pBody monster1Body
      { bodyA := monster1Body, bodyB := pBody } (Or.inr ⟨rfl, rfl⟩) rfl rfl
      (by decide) (by decide) (by decide) (by decide) (by decide) (by decide)
      (by decide)).2.2.1,
   (projectile_monster_removal c8state pBody monster1Body
      { bodyA := monster1Body, bodyB := pBody } (Or.inr ⟨rfl, rfl⟩) rfl rfl
      (by decide) (by decide) (by decide) (by decide) (by decide) (by decide)
      (by decide)).2.2.2.2.2.1⟩

/-! Registry consistency. -/

theorem registry_processPair (t h : Nat) (s : SimState) (p : Pair)
    (hs : RegistryConsistent s) : RegistryConsistent (processPair t h s p) := by
  obtain ⟨h1, h2⟩ := hs
  rcases processPair_cases t h s p with ⟨pid, mid, he⟩ | ⟨g, he⟩
  · rw [he]
    refine ⟨?_, ?_⟩
    · intro mb hmb
      have hmb2 : mb ∈ removeById s.monsters mid := hmb
      have hnem : mb.id ≠ mid := removeById_not_mem_id _ _ mb hmb2
      have hmb3 : mb ∈ s.monsters := List.mem_of_mem_filter hmb2
      constructor
      · show (lookupKV (removeKey s.monsterAI mid) mb.id).isSome = true
        rw [lookupKV_removeKey_ne _ mid mb.id hnem]
        exact (h1 mb hmb3).1
      · show (lookupKV (removeKey s.monsterStyleSeed mid) mb.id).isSome = true
        rw [lookupKV_removeKey_ne _ mid mb.id hnem]
        exact (h1 mb hmb3).2
    · intro kv hkv
      have hkv2 : kv ∈ removeKey s.monsterAI mid := hkv
      obtain ⟨hkvl, hkne⟩ := mem_removeKey _ _ _ hkv2
      obtain ⟨mb, hmb, hid⟩ := h2 kv hkvl
      exact ⟨mb, mem_removeById _ mb mid hmb (by rw [hid]; exact hkne), hid⟩
  · rw [he]
    exact ⟨h1, h2⟩

theorem registry_collisionBatch (ps : List Pair) :
    ∀ s : SimState, RegistryConsistent s →
      RegistryConsistent (collisionBatch torsoId headId ps s) := by
  induction ps with
  | nil => intro s hs; exact hs
  | cons p rest ih =>
    intro s hs
    exact ih _ (registry_processPair _ _ s p hs)

theorem registry_runTick (i : TickInput) (s : SimState)
    (hs : RegistryConsistent s) : RegistryConsistent (runTick i s) := by
  have hb : RegistryConsistent (collisionBatch torsoId headId i.pairs s) :=
    registry_collisionBatch i.pairs s hs
  have hf : RegistryConsistent
      (fallCheck i.playerY (collisionBatch torsoId headId i.pairs s)) := by
    unfold fallCheck
    split_ifs
    · exact ⟨hb.1, hb.2⟩
    · exact hb
  show RegistryConsistent
    (reactFlush (fallCheck i.playerY (collisionBatch torsoId headId i.pairs s)))
  cases hp : (fallCheck i.playerY
      (collisionBatch torsoId headId i.pairs s)).pendingGameState with
  | some g =>
    rw [reactFlush_of_some _ g hp]
    exact ⟨hf.1, hf.2⟩
  | none =>
    rw [reactFlush_of_none _ hp]
    exact hf

/-- C10: along every run from the freshly built world, every tracked
monster body has both an AI record and a style-seed record keyed by its
id, and every AI record key belongs to a tracked monster body: the
Projectile-Monster removal deletes the tracked entry, the AI record and
the style-seed record together in the same step, so no record outlives
its body and no tracked monster lacks one. -/
theorem monster_registry_consistent (inputs : List TickInput) :
    RegistryConsistent (runTicks inputs initSim) := by
  have hinit : RegistryConsistent initSim := by
    refine ⟨?_, ?_⟩
    · intro mb hmb
      fin_cases hmb <;> exact ⟨rfl, rfl⟩
    · intro kv hkv
      fin_cases hkv
      · exact ⟨monster1Body, by decide, rfl⟩
      · exact ⟨monster2Body, by decide, rfl⟩
      · exact ⟨monster3Body, by decide, rfl⟩
  have hgen : ∀ (L : List TickInput) (s : SimState),
      RegistryConsistent s → RegistryConsistent (runTicks L s) := by
    intro L
    induction L with
    | nil => intro s hs; exact hs
    | cons i rest ih => intro s hs; exact ih _ (registry_runTick i s hs)
  exact hgen inputs initSim hinit

end KiloMan
